import Mathlib

/-!
Shallow embedding of the esbatu voice/playback orchestration library
(stegripe/esbatu), covering the Node lifecycle fragments, the Player
(playback handle) operations and migration, the VoiceConnection gateway
handling, and the durable per-node channel roster, as implemented in
src/Constants.ts, src/node/index.ts, src/node/Rest.ts, src/guild/Player.ts
and src/guild/VoiceConnection.ts.  The repository also carries a historical
variant of the same design (the "icelink" files); where a claim depends on
both variants, both are embedded side by side with an explicit name suffix.

Modelling conventions:
- JavaScript numbers are modelled as ℤ for integral quantities and ℚ for
  fractional ones (CPU load, filter gains).
- `undefined` and `null` are both modelled as `Option.none`; TypeScript
  non-null assertions (`x!`) are compile-time only, so a `!` on a null
  value is modelled as the null value itself.
- The Redis store is modelled as an association list from key strings to
  already-parsed rosters (the JSON round trip is the identity on the data
  the code stores).
- Object identity of a Player's bound node is modelled by embedding the
  node record in the player, since the source only ever compares nodes by
  `.name`.
-/

namespace Esbatu

/-- Node lifecycle states, from src/Constants.ts. -/
inductive State where
  | Connecting
  | Nearly
  | Connected
  | Reconnecting
  | Disconnecting
  | Disconnected
  deriving DecidableEq

/-- Voice connection handshake signals, from src/Constants.ts. -/
inductive VoiceState where
  | SessionReady
  | SessionIdMissing
  | SessionEndpointMissing
  | SessionFailedUpdate
  deriving DecidableEq

/-- Equalizer band, from src/guild/Player.ts. -/
structure Band where
  band : ℤ
  gain : ℚ
  deriving DecidableEq

/-- Karaoke filter settings, from src/guild/Player.ts. -/
structure KaraokeSettings where
  level : Option ℚ := none
  monoLevel : Option ℚ := none
  filterBand : Option ℚ := none
  filterWidth : Option ℚ := none
  deriving DecidableEq

/-- Timescale filter settings, from src/guild/Player.ts. -/
structure TimescaleSettings where
  speed : Option ℚ := none
  pitch : Option ℚ := none
  rate : Option ℚ := none
  deriving DecidableEq

/-- Tremolo/vibrato filter settings, from src/guild/Player.ts. -/
structure FreqSettings where
  frequency : Option ℚ := none
  depth : Option ℚ := none
  deriving DecidableEq

/-- Rotation filter settings, from src/guild/Player.ts. -/
structure RotationSettings where
  rotationHz : Option ℚ := none
  deriving DecidableEq

/-- Distortion filter settings, from src/guild/Player.ts. -/
structure DistortionSettings where
  sinOffset : Option ℚ := none
  sinScale : Option ℚ := none
  cosOffset : Option ℚ := none
  cosScale : Option ℚ := none
  tanOffset : Option ℚ := none
  tanScale : Option ℚ := none
  offset : Option ℚ := none
  scale : Option ℚ := none
  deriving DecidableEq

/-- Channel-mix filter settings, from src/guild/Player.ts. -/
structure ChannelMixSettings where
  leftToLeft : Option ℚ := none
  leftToRight : Option ℚ := none
  rightToLeft : Option ℚ := none
  rightToRight : Option ℚ := none
  deriving DecidableEq

/-- Low-pass filter settings, from src/guild/Player.ts. -/
structure LowPassSettings where
  smoothing : Option ℚ := none
  deriving DecidableEq

/-- Audio filter settings, from src/guild/Player.ts.  Absent (`undefined`)
and explicit `null` sub-settings are both modelled as `none`. -/
structure FilterOptions where
  volume : Option ℚ := none
  equalizer : Option (List Band) := none
  karaoke : Option KaraokeSettings := none
  timescale : Option TimescaleSettings := none
  tremolo : Option FreqSettings := none
  vibrato : Option FreqSettings := none
  rotation : Option RotationSettings := none
  distortion : Option DistortionSettings := none
  channelMix : Option ChannelMixSettings := none
  lowPass : Option LowPassSettings := none
  deriving DecidableEq

/-- Track metadata, from src/node/Rest.ts (the fields the embedded
operations read; opaque plugin metadata objects are omitted). -/
structure TrackInfo where
  identifier : String
  isSeekable : Bool := true
  author : String := ""
  length : ℤ := 0
  isStream : Bool := false
  position : ℤ := 0
  title : String := ""
  uri : Option String := none
  sourceName : String := ""
  deriving DecidableEq

/-- An encoded track together with its info, from src/node/Rest.ts. -/
structure Track where
  encoded : String
  info : TrackInfo
  deriving DecidableEq

/-- Remote player snapshot state, from src/node/Rest.ts
(`LavalinkPlayerState`). -/
structure LavalinkPlayerState where
  time : ℤ := 0
  position : ℤ := 0
  connected : Bool := false
  ping : ℤ := 0
  deriving DecidableEq

/-- Remote player snapshot, from src/node/Rest.ts (`LavalinkPlayer`).
This is the response shape of the `updatePlayer` request. -/
structure LavalinkPlayer where
  guildId : String := ""
  track : Option Track := none
  volume : ℤ := 100
  paused : Bool := false
  state : LavalinkPlayerState := {}
  filters : FilterOptions := {}
  deriving DecidableEq

/-- Memory statistics, from src/node/index.ts (`NodeStats.memory`). -/
structure MemoryStats where
  reservable : ℤ := 0
  used : ℤ := 0
  free : ℤ := 0
  allocated : ℤ := 0
  deriving DecidableEq

/-- Frame statistics, from src/node/index.ts (`NodeStats.frameStats`). -/
structure FrameStats where
  sent : ℤ := 0
  deficit : ℤ := 0
  nulled : ℤ := 0
  deriving DecidableEq

/-- CPU statistics, from src/node/index.ts (`NodeStats.cpu`). -/
structure CpuStats where
  cores : ℤ := 0
  systemLoad : ℚ := 0
  lavalinkLoad : ℚ := 0
  deriving DecidableEq

/-- Health statistics pushed by a node, from src/node/index.ts
(`NodeStats`). -/
structure NodeStats where
  players : ℤ := 0
  playingPlayers : ℤ := 0
  memory : MemoryStats := {}
  frameStats : Option FrameStats := none
  cpu : CpuStats := {}
  uptime : ℤ := 0
  deriving DecidableEq

/-- The per-node data read by the Player migration logic: its unique name,
lifecycle state and last statistics (src/node/index.ts fields `name`,
`state`, `stats`). -/
structure NodeEntry where
  name : String
  state : State := State.Disconnected
  stats : Option NodeStats := none
  deriving DecidableEq

/-- Playback handle state, from src/guild/Player.ts.  The bound node
reference is embedded as a `NodeEntry` (the source only compares nodes by
name); the EventEmitter listener registry is modelled as the list of
registered listener tags. -/
structure Player where
  guildId : String
  node : NodeEntry
  trackIdentifier : Option String := none
  volume : ℤ := 100
  paused : Bool := false
  ping : ℤ := 0
  position : ℤ := 0
  filters : FilterOptions := {}
  connected : Bool := false
  _encodedTrack : Option String := none
  _prepareMove : Bool := false
  listeners : List String := []
  deriving DecidableEq

/-- Per-guild position/ping/connectivity snapshot carried by a
`playerUpdate` push (src/guild/Player.ts `PlayerUpdatePayload.state`). -/
structure PlayerUpdateState where
  time : ℤ := 0
  position : ℤ := 0
  connected : Bool := false
  ping : ℤ := 0
  deriving DecidableEq

/-- A `playerUpdate` push payload (src/guild/Player.ts). -/
structure PlayerUpdatePayload where
  guildId : String
  state : PlayerUpdateState
  deriving DecidableEq

/-- Reason a track ended, from src/guild/Player.ts (`TrackEndReason`). -/
inductive TrackEndReason where
  | finished
  | loadFailed
  | stopped
  | replaced
  | cleanup
  deriving DecidableEq

/-- A remote playback exception, from src/node/Rest.ts (`Exception`). -/
structure Exception where
  message : String := ""
  severity : String := "common"
  cause : String := ""
  deriving DecidableEq

/-- Domain event payloads delivered over the push channel, from
src/guild/Player.ts (the `type`-tagged event union). -/
inductive PlayerEventPayload where
  | trackStart (track : Track)
  | trackEnd (track : Option Track) (reason : TrackEndReason)
  | trackStuck (track : Track) (thresholdMs : ℤ)
  | trackException (track : Track) (exception : Exception)
  | webSocketClosed (code : ℤ) (reason : String) (byRemote : Bool)
  | unknown
  deriving DecidableEq

/-- Events surfaced by the handlers: local Player events (`update`,
`start`, `end`, `stuck`, `exception`, `closed`), manager-level debug
messages, and manager-level raw passthrough. -/
inductive EmittedEvent where
  | update (data : PlayerUpdatePayload)
  | start (data : PlayerEventPayload)
  | ended (data : PlayerEventPayload)
  | stuck (data : PlayerEventPayload)
  | exception (data : PlayerEventPayload)
  | closed (data : PlayerEventPayload)
  | managerDebug (message : String)
  | raw
  deriving DecidableEq

/-- `Player.onPlayerUpdate` (src/guild/Player.ts): suppressed entirely
while `_prepareMove` is set; otherwise refreshes position, ping and
connectivity and emits a local `update` event. -/
def Player.onPlayerUpdate (p : Player) (data : PlayerUpdatePayload) :
    Player × List EmittedEvent :=
  if p._prepareMove then (p, [])
  else
    ({ p with
        position := data.state.position
        ping := data.state.ping
        connected := data.state.connected },
      [EmittedEvent.update data])

/-- `Player.onPlayerEvent` (src/guild/Player.ts): suppressed entirely
while `_prepareMove` is set; otherwise updates the track identity on
track start and surfaces the corresponding local event (unknown event
types only produce a manager debug message). -/
def Player.onPlayerEvent (p : Player) (data : PlayerEventPayload) :
    Player × List EmittedEvent :=
  if p._prepareMove then (p, [])
  else
    match data with
    | PlayerEventPayload.trackStart track =>
        ({ p with
            trackIdentifier := some track.info.identifier
            _encodedTrack := some track.encoded },
          [EmittedEvent.start data])
    | PlayerEventPayload.trackEnd _ _ => (p, [EmittedEvent.ended data])
    | PlayerEventPayload.trackStuck _ _ => (p, [EmittedEvent.stuck data])
    | PlayerEventPayload.trackException _ _ => (p, [EmittedEvent.exception data])
    | PlayerEventPayload.webSocketClosed _ _ _ => (p, [EmittedEvent.closed data])
    | PlayerEventPayload.unknown => (p, [EmittedEvent.managerDebug "unknown player message"])

/-- One inbound push routed to a Player: either a player-update or a
domain event. -/
inductive InboundPush where
  | update (data : PlayerUpdatePayload)
  | event (data : PlayerEventPayload)
  deriving DecidableEq

/-- Deliver a single inbound push to a Player. -/
def Player.applyPush (p : Player) (m : InboundPush) : Player × List EmittedEvent :=
  match m with
  | InboundPush.update d => p.onPlayerUpdate d
  | InboundPush.event d => p.onPlayerEvent d

/-- Deliver a sequence of inbound pushes to a Player, accumulating the
emitted events in delivery order. -/
def Player.applyPushes (p : Player) : List InboundPush → Player × List EmittedEvent
  | [] => (p, [])
  | m :: ms =>
      let r := p.applyPush m
      let rest := r.1.applyPushes ms
      (rest.1, r.2 ++ rest.2)

/-- `Player.clean` (src/guild/Player.ts): resets the track identity,
volume, position, filters and encoded track, and removes all listeners.
The pause flag, ping and connectivity flag are not touched by the
source. -/
def Player.clean (p : Player) : Player :=
  { p with
      trackIdentifier := none
      volume := 100
      position := 0
      filters := {}
      _encodedTrack := none
      listeners := [] }

/-- Modelled from the spec: the clean() the specification describes, which
resets ALL mirrored fields (track identity, position, pause flag, volume,
filters, connectivity, ping, encoded track) to their defaults and
detaches all listeners.  Used only to compare with `Player.clean`. -/
def Player.cleanSpec (p : Player) : Player :=
  { p with
      trackIdentifier := none
      volume := 100
      paused := false
      ping := 0
      position := 0
      filters := {}
      connected := false
      _encodedTrack := none
      listeners := [] }

/-- The nested `track` field of an `updatePlayer` request body
(src/node/Rest.ts `UpdatePlayerOptions.track`): an optional
`{ encoded?: string | null }` object. -/
structure TrackUpdate where
  encoded : Option (Option String) := none
  deriving DecidableEq

/-- Voice credentials carried in an `updatePlayer` request
(src/node/Rest.ts `LavalinkPlayerVoiceState`). -/
structure LavalinkPlayerVoiceState where
  token : String := ""
  endpoint : String := ""
  sessionId : String := ""
  deriving DecidableEq

/-- Body of an `updatePlayer` request (src/node/Rest.ts
`UpdatePlayerOptions`). -/
structure UpdatePlayerOptions where
  track : Option TrackUpdate := none
  position : Option ℤ := none
  endTime : Option ℤ := none
  volume : Option ℤ := none
  paused : Option Bool := none
  filters : Option FilterOptions := none
  voice : Option LavalinkPlayerVoiceState := none
  deriving DecidableEq

/-- A full `updatePlayer` request (src/node/Rest.ts `UpdatePlayerInfo`):
the request is scoped to one guild. -/
structure UpdatePlayerInfo where
  guildId : String
  playerOptions : UpdatePlayerOptions := {}
  noReplace : Option Bool := none
  deriving DecidableEq

/-- Outcome of a mutating Player operation: either the new local state, or
a propagated request failure together with the local state at the moment
the failure surfaced. -/
inductive OpOutcome where
  | ok (p : Player)
  | failed (p : Player)
  deriving DecidableEq

/-- Result of running one Player operation against a scripted sequence of
`updatePlayer` responses: the requests it issued, the remaining script,
and the outcome. -/
structure OpResult where
  requests : List UpdatePlayerInfo
  script : List (Option LavalinkPlayer)
  outcome : OpOutcome
  deriving DecidableEq

/-- One `rest.updatePlayer` round trip: consumes the head of the response
script (`none` models a request that failed or never completed) and logs
the issued request. -/
def restUpdatePlayer (info : UpdatePlayerInfo) (script : List (Option LavalinkPlayer)) :
    List UpdatePlayerInfo × List (Option LavalinkPlayer) × Option LavalinkPlayer :=
  ([info], script.tail, (script.head?).getD none)

/-- Inner options of `Player.playTrack` (src/guild/Player.ts
`PlayOptions.options`). -/
structure PlayOptionsInner where
  noReplace : Option Bool := none
  pause : Option Bool := none
  startTime : Option ℤ := none
  endTime : Option ℤ := none
  deriving DecidableEq

/-- `Player.playTrack` argument (src/guild/Player.ts `PlayOptions`). -/
structure PlayOptions where
  track : String
  options : Option PlayOptionsInner := none
  deriving DecidableEq

/-- `Player.playTrack` (src/guild/Player.ts): one `updatePlayer` request;
on success the track identity, pause flag, position and encoded track are
overwritten from the response; on failure the local state is untouched. -/
def Player.playTrack (p : Player) (playable : PlayOptions)
    (script : List (Option LavalinkPlayer)) : OpResult :=
  let r := restUpdatePlayer
    { guildId := p.guildId
      playerOptions :=
        { track := some { encoded := some (some playable.track) }
          paused := playable.options.bind (fun o => o.pause)
          position := playable.options.bind (fun o => o.startTime)
          endTime := playable.options.bind (fun o => o.endTime) }
      noReplace := playable.options.bind (fun o => o.noReplace) } script
  match r.2.2 with
  | none => { requests := r.1, script := r.2.1, outcome := OpOutcome.failed p }
  | some player =>
      { requests := r.1
        script := r.2.1
        outcome := OpOutcome.ok { p with
          trackIdentifier := player.track.map (fun t => t.info.identifier)
          paused := player.paused
          position := player.state.position
          _encodedTrack := player.track.map (fun t => t.encoded) } }

/-- `Player.stopTrack` (src/guild/Player.ts): resets the local position
and encoded track BEFORE issuing its single request, and ignores the
response body. -/
def Player.stopTrack (p : Player) (script : List (Option LavalinkPlayer)) : OpResult :=
  let p1 := { p with position := 0, _encodedTrack := none }
  let r := restUpdatePlayer
    { guildId := p.guildId
      playerOptions := { track := some { encoded := some none } } } script
  match r.2.2 with
  | none => { requests := r.1, script := r.2.1, outcome := OpOutcome.failed p1 }
  | some _ => { requests := r.1, script := r.2.1, outcome := OpOutcome.ok p1 }

/-- `Player.setPaused` (src/guild/Player.ts): one request; the pause flag
is overwritten from the response. -/
def Player.setPaused (p : Player) (paused : Bool)
    (script : List (Option LavalinkPlayer)) : OpResult :=
  let r := restUpdatePlayer
    { guildId := p.guildId, playerOptions := { paused := some paused } } script
  match r.2.2 with
  | none => { requests := r.1, script := r.2.1, outcome := OpOutcome.failed p }
  | some player =>
      { requests := r.1
        script := r.2.1
        outcome := OpOutcome.ok { p with paused := player.paused } }

/-- `Player.seekTo` (src/guild/Player.ts): one request; the position is
overwritten from the response. -/
def Player.seekTo (p : Player) (position : ℤ)
    (script : List (Option LavalinkPlayer)) : OpResult :=
  let r := restUpdatePlayer
    { guildId := p.guildId, playerOptions := { position := some position } } script
  match r.2.2 with
  | none => { requests := r.1, script := r.2.1, outcome := OpOutcome.failed p }
  | some player =>
      { requests := r.1
        script := r.2.1
        outcome := OpOutcome.ok { p with position := player.state.position } }

/-- `Player.setGlobalVolume` (src/guild/Player.ts): one request; the
volume is overwritten from the response. -/
def Player.setGlobalVolume (p : Player) (volume : ℤ)
    (script : List (Option LavalinkPlayer)) : OpResult :=
  let r := restUpdatePlayer
    { guildId := p.guildId
      playerOptions := { volume := some volume }
      noReplace := some true } script
  match r.2.2 with
  | none => { requests := r.1, script := r.2.1, outcome := OpOutcome.failed p }
  | some player =>
      { requests := r.1
        script := r.2.1
        outcome := OpOutcome.ok { p with volume := player.volume } }

/-- `Player.setFilters` (src/guild/Player.ts): one request; the filter
settings are overwritten from the response. -/
def Player.setFilters (p : Player) (filters : FilterOptions)
    (script : List (Option LavalinkPlayer)) : OpResult :=
  let r := restUpdatePlayer
    { guildId := p.guildId
      playerOptions := { filters := some filters }
      noReplace := some true } script
  match r.2.2 with
  | none => { requests := r.1, script := r.2.1, outcome := OpOutcome.failed p }
  | some player =>
      { requests := r.1
        script := r.2.1
        outcome := OpOutcome.ok { p with filters := player.filters } }

/-- `Player.clearFilters` (src/guild/Player.ts): delegates to
`setFilters` with every filter reset (volume 1, empty equalizer, all
settings null). -/
def Player.clearFilters (p : Player) (script : List (Option LavalinkPlayer)) : OpResult :=
  p.setFilters
    { volume := some 1
      equalizer := some []
      karaoke := none
      timescale := none
      tremolo := none
      vibrato := none
      rotation := none
      distortion := none
      channelMix := none
      lowPass := none } script

/-- A durable roster entry / join options, from src/Esbatu.ts
(`VoiceChannelOptions`).  `channelId` is an `Option` because the roster
rewriting code stores `connection.channelId!`, which is the null value at
runtime when the connection has no channel. -/
structure VoiceChannelOptions where
  guildId : String
  channelId : Option String := none
  shardId : ℕ := 0
  mute : Option Bool := none
  deaf : Option Bool := none
  deriving DecidableEq

/-- `RedisKey.NodePlayers` (src/Constants.ts): the durable roster key for
a node name (the callers lower-case the name before building the key). -/
def RedisKey.NodePlayers (name : String) : String :=
  "esbatu:node:" ++ name ++ ":players"

/-- The roster key as every caller builds it: node name lower-cased. -/
def redisNodePlayersKey (name : String) : String :=
  RedisKey.NodePlayers name.toLower

/-- The durable store, modelled as an association list from keys to
already-parsed rosters (`get` of an unset key is JS `null`, modelled as
`none`, which every caller turns into `[]`). -/
abbrev RedisStore := List (String × List VoiceChannelOptions)

/-- `redis.get` on the modelled store. -/
def redisGet (store : RedisStore) (key : String) : Option (List VoiceChannelOptions) :=
  (store.find? (fun e => e.1 == key)).map (fun e => e.2)

/-- `redis.set` on the modelled store: overwrites the key if present,
appends it otherwise. -/
def redisSet (store : RedisStore) (key : String) (value : List VoiceChannelOptions) :
    RedisStore :=
  if store.any (fun e => e.1 == key) then
    store.map (fun e => if e.1 == key then (key, value) else e)
  else store ++ [(key, value)]

/-- Models `cache.indexOf(cache.find(e => e.guildId === g)!)`: the index
of the first entry for the guild, or `-1` when `find` returns undefined
(JS `indexOf(undefined)` is `-1`). -/
def jsIndexOfGuild (cache : List VoiceChannelOptions) (g : String) : ℤ :=
  match cache.findIdx? (fun e => e.guildId == g) with
  | some i => (i : ℤ)
  | none => -1

/-- The actual deletion index of `Array.prototype.splice(start, 1)`: a
negative start counts from the end of the array (clamped at 0), a
non-negative start is clamped at the length. -/
def jsSpliceStart (len : ℕ) (start : ℤ) : ℕ :=
  if start < 0 then ((len : ℤ) + start).toNat else min start.toNat len

/-- Models `Array.prototype.splice(start, 1)`: at most one element at the
resulting index is removed. -/
def jsSpliceOne (cache : List VoiceChannelOptions) (start : ℤ) :
    List VoiceChannelOptions :=
  cache.take (jsSpliceStart cache.length start) ++
    cache.drop (jsSpliceStart cache.length start + 1)

/-- The roster-removal pattern shared by `Node.leaveVoiceChannel` and
`Player.movePlayer`:
`dataCache.splice(dataCache.indexOf(dataCache.find(({guildId: id}) => id === guildId)!), 1)`. -/
def spliceRemoveGuild (cache : List VoiceChannelOptions) (g : String) :
    List VoiceChannelOptions :=
  jsSpliceOne cache (jsIndexOfGuild cache g)

/-- The roster rewrite performed by `Node.leaveVoiceChannel`
(src/node/index.ts): the guild's entry is spliced out of the cached
roster before it is written back. -/
def Node.leaveVoiceChannelRoster (cache : List VoiceChannelOptions) (guildId : String) :
    List VoiceChannelOptions :=
  spliceRemoveGuild cache guildId

/-- The roster entry `Node.joinVoiceChannel` pushes (src/node/index.ts):
join options with the `deaf`/`mute` defaults applied. -/
def joinRosterEntry (options : VoiceChannelOptions) : VoiceChannelOptions :=
  { guildId := options.guildId
    channelId := options.channelId
    shardId := options.shardId
    deaf := some (options.deaf.getD true)
    mute := some (options.mute.getD false) }

/-- The durable-roster update of `Node.joinVoiceChannel` in the current
(esbatu) variant, src/node/index.ts: the entry is appended iff no cached
entry already has this guild id
(`if (!dataCache.some(({ guildId }) => guildId === options.guildId))`). -/
def Node.joinVoiceChannelRoster (dataCache : List VoiceChannelOptions)
    (options : VoiceChannelOptions) : List VoiceChannelOptions :=
  if dataCache.any (fun e => e.guildId == options.guildId) then dataCache
  else dataCache ++ [joinRosterEntry options]

/-- The durable-roster update of `Node.joinVoiceChannel` in the historical
(icelink) variant: the entry is appended iff SOME cached entry has a
DIFFERENT guild id
(`if (dataCache.some(({ guildId }) => guildId !== options.guildId))`). -/
def Node.joinVoiceChannelRosterIcelink (dataCache : List VoiceChannelOptions)
    (options : VoiceChannelOptions) : List VoiceChannelOptions :=
  if dataCache.any (fun e => e.guildId != options.guildId) then
    dataCache ++ [joinRosterEntry options]
  else dataCache

/-- The exponential CPU-load penalty term of `Node.penalties`
(src/node/index.ts): `Math.round(1.05 ** (100 * systemLoad) * 10 - 10)`,
with the idealized real semantics of JS number arithmetic (`**` is real
exponentiation, `Math.round` rounds half towards positive infinity, as
does Mathlib's `round`). -/
noncomputable def cpuPenalty (systemLoad : ℚ) : ℤ :=
  round ((1.05 : ℝ) ^ (((100 * systemLoad : ℚ) : ℝ)) * 10 - 10)

/-- `Node.penalties` (src/node/index.ts): 0 when no statistics are known,
otherwise player count plus the CPU penalty plus, when frame statistics
are known, the frame deficit plus twice the nulled-frame count. -/
noncomputable def penalties (stats : Option NodeStats) : ℤ :=
  match stats with
  | none => 0
  | some s =>
      s.players + cpuPenalty s.cpu.systemLoad +
        (match s.frameStats with
          | none => 0
          | some fs => fs.deficit + fs.nulled * 2)

/-- Stable insertion step for sorting node lists by penalty. -/
noncomputable def insertByPenalty (n : NodeEntry) : List NodeEntry → List NodeEntry
  | [] => [n]
  | m :: ms =>
      if penalties n.stats < penalties m.stats then n :: m :: ms
      else m :: insertByPenalty n ms

/-- Models `[...].sort((a, b) => a.penalties - b.penalties)`: a stable
sort by ascending penalty (ES2019 Array.prototype.sort is stable, and a
stable insertion sort computes the same list). -/
noncomputable def sortByPenalties : List NodeEntry → List NodeEntry
  | [] => []
  | n :: ns => insertByPenalty n (sortByPenalties ns)

/-- `idealExcludeCurrentNode` inside `Player.movePlayer`
(src/guild/Player.ts): the lowest-penalty node among the nodes that are
Connected and not the current one, obtained as the head of the sorted
filtered list (`.shift()`). -/
noncomputable def idealExcludeCurrentNode (nodes : List NodeEntry) (currentName : String) :
    Option NodeEntry :=
  (sortByPenalties (nodes.filter
    (fun n => decide (n.name ≠ currentName ∧ n.state = State.Connected)))).head?

/-- Look a node up by name in the manager's node collection
(`manager.nodes.get`). -/
def lookupNode (nodes : List NodeEntry) (name : String) : Option NodeEntry :=
  nodes.find? (fun n => n.name == name)

/-- Cached voice-server-update payload, from src/guild/VoiceConnection.ts
(`ServerUpdate`). -/
structure ServerUpdate where
  token : String
  endpoint : String
  deriving DecidableEq

/-- Per-guild voice connection state, from src/guild/VoiceConnection.ts
(the fields read or written by the embedded operations). -/
structure ConnectionInfo where
  guildId : String
  channelId : Option String := none
  shardId : ℕ := 0
  muted : Bool := false
  deafened : Bool := true
  lastChannelId : Option String := none
  sessionId : Option String := none
  region : Option String := none
  lastRegion : Option String := none
  serverUpdate : Option ServerUpdate := none
  state : State := State.Disconnected
  deriving DecidableEq

/-- Look a connection up by guild id (`manager.connections.get`). -/
def lookupConn (conns : List (String × ConnectionInfo)) (guildId : String) :
    Option ConnectionInfo :=
  (conns.find? (fun e => e.1 == guildId)).map (fun e => e.2)

/-- Replace a guild's connection in the manager's collection. -/
def setConn (conns : List (String × ConnectionInfo)) (guildId : String)
    (c : ConnectionInfo) : List (String × ConnectionInfo) :=
  conns.map (fun e => if e.1 == guildId then (guildId, c) else e)

/-- An outbound voice-state update packet (opcode 4) as produced by
`VoiceConnection.sendVoiceUpdate` (src/guild/VoiceConnection.ts). -/
structure GatewaySend where
  shardId : ℕ
  guildId : String
  channelId : Option String
  selfDeaf : Bool
  selfMute : Bool
  deriving DecidableEq

/-- The packet `sendVoiceUpdate` emits for a connection. -/
def sendVoiceUpdatePacket (conn : ConnectionInfo) : GatewaySend :=
  { shardId := conn.shardId
    guildId := conn.guildId
    channelId := conn.channelId
    selfDeaf := conn.deafened
    selfMute := conn.muted }

/-- The manager-level environment `Player.movePlayer` touches: the node
collection, the connection collection, the durable store, and scripted
outcomes for the rest calls it awaits (`updatePlayer` responses for
`resumePlayer`, success flags for `destroyPlayer`). -/
structure MoveEnv where
  nodes : List NodeEntry
  connections : List (String × ConnectionInfo) := []
  redis : RedisStore := []
  updateScript : List (Option LavalinkPlayer) := []
  destroyScript : List Bool := []
  deriving DecidableEq

/-- Consume one scripted `updatePlayer` response (none = the request
failed). -/
def consumeUpdate (env : MoveEnv) : MoveEnv × Option LavalinkPlayer :=
  ({ env with updateScript := env.updateScript.tail },
    (env.updateScript.head?).getD none)

/-- Consume one scripted `destroyPlayer` outcome (false = the request
failed). -/
def consumeDestroy (env : MoveEnv) : MoveEnv × Bool :=
  ({ env with destroyScript := env.destroyScript.tail },
    (env.destroyScript.head?).getD false)

/-- Overall outcome of a `movePlayer` call: a returned boolean, or an
exception propagated to the caller (an explicit `Error` or a runtime
`TypeError`). -/
inductive MoveOutcome where
  | returned (moved : Bool)
  | threw (message : String)
  deriving DecidableEq

/-- Result of the shared try/catch body of `movePlayer`. -/
inductive RebindResult where
  | ok (p : Player) (env : MoveEnv) (sends : List GatewaySend)
  | crashed (p : Player) (env : MoveEnv) (sends : List GatewaySend)
  deriving DecidableEq

/-- `Player.resumePlayer` (src/guild/Player.ts) as invoked with the
player's connection already in hand: one `updatePlayer` request carrying
the cached track, position, pause flag, filters and the connection's
voice credentials; when the response reports the voice socket as not
connected, the voice-state update packet is re-sent.  Returns `none` for
a propagated request failure. -/
def Player.resumePlayer (conn : ConnectionInfo) (env : MoveEnv) :
    MoveEnv × Option (List GatewaySend) :=
  match consumeUpdate env with
  | (env1, none) => (env1, none)
  | (env1, some resp) =>
      (env1, some (if resp.state.connected then [] else [sendVoiceUpdatePacket conn]))

/-- The body shared by the `try` and `catch` blocks of `Player.movePlayer`
(src/guild/Player.ts): rebind the node reference, read the target node's
roster, push this guild's entry, resume the player, then persist the
roster.  `crashed` models an exception thrown partway through (a rest
failure inside `resumePlayer`, or the `TypeError` from reading
`this.connection.channelId!` when the guild has no connection). -/
def rebindAndResume (p : Player) (target : NodeEntry) (env : MoveEnv) : RebindResult :=
  let p1 := { p with node := target }
  let key := redisNodePlayersKey target.name
  let dataCache := (redisGet env.redis key).getD []
  match lookupConn env.connections p1.guildId with
  | none => RebindResult.crashed p1 env []
  | some conn =>
      let dataCache := dataCache ++
        [{ guildId := p1.guildId
           channelId := conn.channelId
           shardId := conn.shardId
           deaf := some conn.deafened
           mute := some conn.muted }]
      match Player.resumePlayer conn env with
      | (env1, none) => RebindResult.crashed p1 env1 []
      | (env1, some sends) =>
          RebindResult.ok p1 { env1 with redis := redisSet env1.redis key dataCache } sends

/-- `Player.movePlayer` (src/guild/Player.ts).  Selects the target node
(the explicitly named one, else the best Connected node excluding the
current one); returns false when there is no target or the target is the
current node; throws when the target is not Connected.  Otherwise removes
this guild from the source node's roster, sets the migration flag,
destroys the remote player when the source is still Connected, and runs
the rebind-and-resume body against the target, falling back to the prior
(or best remaining) node on failure. -/
noncomputable def Player.movePlayer (p : Player) (name : Option String) (env : MoveEnv) :
    MoveOutcome × Player × MoveEnv × List GatewaySend :=
  let node? := (name.bind (lookupNode env.nodes)).orElse
    (fun _ => idealExcludeCurrentNode env.nodes p.node.name)
  match node? with
  | none => (MoveOutcome.returned false, p, env, [])
  | some node =>
      if node.name = p.node.name then (MoveOutcome.returned false, p, env, [])
      else if node.state ≠ State.Connected then
        (MoveOutcome.threw "No available nodes to move to", p, env, [])
      else
        let lastNode? :=
          match lookupNode env.nodes p.node.name with
          | some ln =>
              if ln.state ≠ State.Connected then idealExcludeCurrentNode env.nodes p.node.name
              else some ln
          | none => idealExcludeCurrentNode env.nodes p.node.name
        let key := redisNodePlayersKey p.node.name
        let cur := spliceRemoveGuild ((redisGet env.redis key).getD []) p.guildId
        let p1 := { p with _prepareMove := true }
        let env1 := { env with redis := redisSet env.redis key cur }
        let destroyStep :=
          if p1.node.state = State.Connected then consumeDestroy env1 else (env1, true)
        if destroyStep.2 = false then
          (MoveOutcome.threw "rest request failed", p1, destroyStep.1, [])
        else
          match rebindAndResume p1 node destroyStep.1 with
          | RebindResult.ok p2 env2 sends =>
              (MoveOutcome.returned true, { p2 with _prepareMove := false }, env2, sends)
          | RebindResult.crashed p2 env2 sends =>
              match lastNode? with
              | none => (MoveOutcome.threw "TypeError", p2, env2, sends)
              | some ln =>
                  match rebindAndResume p2 ln env2 with
                  | RebindResult.ok p3 env3 sends2 =>
                      (MoveOutcome.returned false, { p3 with _prepareMove := false },
                        env3, sends ++ sends2)
                  | RebindResult.crashed p3 env3 sends2 =>
                      (MoveOutcome.threw "error escaped catch", p3, env3, sends ++ sends2)

/-- The per-node connection state read by the message handler
(src/node/index.ts fields `state`, `destroyed`, `stats`, `sessionId`). -/
structure NodeWsState where
  name : String
  state : State := State.Disconnected
  destroyed : Bool := false
  stats : Option NodeStats := none
  sessionId : Option String := none
  deriving DecidableEq

/-- An inbound transport push, tagged by operation (src/node/index.ts
`message`).  The `ready` operation triggers the resume machinery, which
is outside the fragment the routing claims are about, and is therefore
not part of this inductive; `unknown` covers unrecognized opcodes. -/
inductive PushMessage where
  | stats (s : NodeStats)
  | playerUpdate (guildId : String) (st : PlayerUpdateState)
  | event (guildId : String) (ev : PlayerEventPayload)
  | unknown
  deriving DecidableEq

/-- Look a player up by guild id (`manager.players.get`). -/
def lookupPlayer (players : List (String × Player)) (guildId : String) : Option Player :=
  (players.find? (fun e => e.1 == guildId)).map (fun e => e.2)

/-- Replace a guild's player in the manager's collection. -/
def setPlayer (players : List (String × Player)) (guildId : String) (p : Player) :
    List (String × Player) :=
  players.map (fun e => if e.1 == guildId then (guildId, p) else e)

/-- The `message` handler of src/node/index.ts restricted to the
stats/playerUpdate/event/unknown operations: the whole message is dropped
(before even the raw passthrough) when the node is already destroyed or
is in the Reconnecting state; otherwise the raw event fires, a stats push
replaces the cached statistics, and a player-update or event push is
routed by guild id to the registered player, being silently dropped when
no player matches. -/
def Node.message (node : NodeWsState) (players : List (String × Player))
    (msg : PushMessage) : NodeWsState × List (String × Player) × List EmittedEvent :=
  if node.destroyed ∨ node.state = State.Reconnecting then (node, players, [])
  else
    match msg with
    | PushMessage.stats s =>
        ({ node with stats := some s }, players,
          [EmittedEvent.raw, EmittedEvent.managerDebug "node status update"])
    | PushMessage.playerUpdate g st =>
        match lookupPlayer players g with
        | none => (node, players, [EmittedEvent.raw])
        | some p =>
            let r := p.onPlayerUpdate { guildId := g, state := st }
            (node, setPlayer players g r.1, EmittedEvent.raw :: r.2)
    | PushMessage.event g ev =>
        match lookupPlayer players g with
        | none => (node, players, [EmittedEvent.raw])
        | some p =>
            let r := p.onPlayerEvent ev
            (node, setPlayer players g r.1, EmittedEvent.raw :: r.2)
    | PushMessage.unknown =>
        (node, players, [EmittedEvent.raw, EmittedEvent.managerDebug "unknown opcodes message"])

/-- An inbound gateway dispatch packet as consumed by
`Esbatu.updateInstance` (src/node/Rest.ts): a voice-server update, a
voice-state update, or any other dispatch kind. -/
inductive GatewayPacket where
  | voiceServerUpdate (guildId : String) (token : String) (endpoint : Option String)
  | voiceStateUpdate (guildId : String) (channelId : Option String) (sessionId : String)
      (selfDeaf : Bool) (selfMute : Bool) (userId : String)
  | other
  deriving DecidableEq

/-- Region derivation on acceptance of a server update
(src/node/Rest.ts): the first dot-separated label of the endpoint with
all decimal digits removed. -/
def deriveRegion (endpoint : String) : Option String :=
  ((endpoint.splitOn ".").head?).map
    (fun s => String.mk (s.toList.filter (fun c => ¬ c.isDigit)))

/-- `Esbatu.updateInstance` (src/node/Rest.ts): the sole inbound
gateway-event entry point.  Packets for guilds with no connection and
non-voice packets are ignored.  A voice-server update is rejected with
the missing-endpoint signal when the endpoint is null, then with the
missing-session-id signal when no gateway session id is recorded; only
when both are present are the region derived, the server update cached
and the ready signal emitted.  A voice-state update is ignored unless the
user id is the controlling client's; otherwise it refreshes channel,
deaf/mute and session id, and marks the connection Disconnected when the
channel became null.  Returns the updated connection collection and the
`connectionUpdate` signals emitted, tagged by guild. -/
def updateInstance (conns : List (String × ConnectionInfo)) (managerId : Option String)
    (packet : GatewayPacket) :
    List (String × ConnectionInfo) × List (String × VoiceState) :=
  match packet with
  | GatewayPacket.other => (conns, [])
  | GatewayPacket.voiceServerUpdate g token endpoint =>
      match lookupConn conns g with
      | none => (conns, [])
      | some c =>
          match endpoint with
          | none => (conns, [(g, VoiceState.SessionEndpointMissing)])
          | some ep =>
              match c.sessionId with
              | none => (conns, [(g, VoiceState.SessionIdMissing)])
              | some _ =>
                  let c1 := { c with
                    lastRegion := c.region
                    region := deriveRegion ep
                    serverUpdate := some { token := token, endpoint := ep } }
                  (setConn conns g c1, [(g, VoiceState.SessionReady)])
  | GatewayPacket.voiceStateUpdate g ch sid selfDeaf selfMute userId =>
      match lookupConn conns g with
      | none => (conns, [])
      | some c =>
          if some userId ≠ managerId then (conns, [])
          else
            let c1 := { c with
              lastChannelId := c.channelId
              channelId := ch
              deafened := selfDeaf
              muted := selfMute
              sessionId := some sid }
            let c2 := if ch = none then { c1 with state := State.Disconnected } else c1
            (setConn conns g c2, [])

/-! ## Claim theorems -/

/-- A single push is absorbed without any effect while the migration flag
is set. -/
theorem applyPush_of_prepareMove (p : Player) (m : InboundPush)
    (h : p._prepareMove = true) : p.applyPush m = (p, []) := by
  cases m with
  | update d => simp [Player.applyPush, Player.onPlayerUpdate, h]
  | event d => simp [Player.applyPush, Player.onPlayerEvent, h]

/-- Claim C3: while the migration-in-progress flag is set, any sequence of
inbound player-update and domain-event pushes leaves every field of the
Player unchanged and emits no local event. -/
theorem prepareMove_suppresses_all_pushes (p : Player) (ms : List InboundPush)
    (h : p._prepareMove = true) : p.applyPushes ms = (p, []) := by
  induction ms with
  | nil => rfl
  | cons m ms ih =>
      simp only [Player.applyPushes, applyPush_of_prepareMove p m h, ih,
        List.nil_append]

/-- Sample player with the migration flag set for exercising claim C3. -/
def c3Player : Player :=
  { guildId := "g1", node := { name := "a" }, position := 42, _prepareMove := true }

/-- Witness for claim C3: a concrete player with the migration flag set
absorbs a concrete push sequence unchanged and silently. -/
theorem prepareMove_suppresses_all_pushes_witness :
    c3Player._prepareMove = true ∧
      c3Player.applyPushes
        [InboundPush.update { guildId := "g1", state := { position := 99, ping := 3 } },
          InboundPush.event (PlayerEventPayload.trackEnd none TrackEndReason.finished)] =
        (c3Player, []) :=
  ⟨rfl, prepareMove_suppresses_all_pushes c3Player _ rfl⟩

/-- Sample player whose pause flag, ping and connectivity flag are away
from their defaults, for exercising claim C8. -/
def c8Player : Player :=
  { guildId := "g1", node := { name := "a" }, trackIdentifier := some "t"
    volume := 55, paused := true, ping := 5, position := 777
    _encodedTrack := some "enc", connected := true, listeners := ["start"] }

/-- Counterexample for claim C8: `clean()` does not reset every mirrored
field to its default — on a player with `paused`, `ping` and `connected`
away from their defaults it differs from the full reset the claim
describes (it leaves those three fields untouched). -/
theorem clean_is_not_full_reset :
    Player.clean c8Player ≠ Player.cleanSpec c8Player ∧
      (Player.clean c8Player).paused = true ∧
      (Player.clean c8Player).ping = 5 ∧
      (Player.clean c8Player).connected = true := by
  refine ⟨?_, rfl, rfl, rfl⟩
  decide

/-- Claim C8 (amended): `clean()` resets the track identity, volume,
position, filters and encoded track to their defaults and detaches all
listeners, but leaves the pause flag, ping and connectivity flag
unchanged. -/
theorem clean_resets_mirrored_fields (p : Player) :
    (p.clean).trackIdentifier = none ∧ (p.clean).volume = 100 ∧
      (p.clean).position = 0 ∧ (p.clean).filters = {} ∧
      (p.clean)._encodedTrack = none ∧ (p.clean).listeners = [] ∧
      (p.clean).paused = p.paused ∧ (p.clean).ping = p.ping ∧
      (p.clean).connected = p.connected ∧ (p.clean).guildId = p.guildId ∧
      (p.clean).node = p.node := by
  simp [Player.clean]

/-- Claim C10: when the cached roster is non-empty but holds no entry for
the guild, the `find`/`indexOf`/`splice` pattern of
`Node.leaveVoiceChannel` resolves to `splice(-1, 1)` and removes the LAST
entry instead of leaving the roster unchanged; `Player.movePlayer` uses
the identical pattern (`spliceRemoveGuild`) on the source node's
roster. -/
theorem leave_splice_removes_last_when_guild_absent
    (cache : List VoiceChannelOptions) (g : String)
    (h1 : cache ≠ []) (h2 : ∀ e ∈ cache, e.guildId ≠ g) :
    Node.leaveVoiceChannelRoster cache g = cache.dropLast ∧
      spliceRemoveGuild cache g = cache.dropLast := by
  have hidx : jsIndexOfGuild cache g = -1 := by
    unfold jsIndexOfGuild
    rw [List.findIdx?_eq_none_iff.mpr]
    intro e he
    simpa using h2 e he
  have hpos : 0 < cache.length := List.length_pos.mpr h1
  have hstart : jsSpliceStart cache.length (-1) = cache.length - 1 := by
    unfold jsSpliceStart
    rw [if_pos (by decide)]
    omega
  have hmain : spliceRemoveGuild cache g = cache.dropLast := by
    unfold spliceRemoveGuild jsSpliceOne
    rw [hidx, hstart, Nat.sub_add_cancel hpos, List.drop_length, List.append_nil,
      ← List.dropLast_eq_take]
  exact ⟨hmain, hmain⟩

/-- First concrete roster entry for the claim C10 witness. -/
def c10EntryA : VoiceChannelOptions := { guildId := "g1", channelId := some "c1" }

/-- Second concrete roster entry for the claim C10 witness. -/
def c10EntryB : VoiceChannelOptions := { guildId := "g2", channelId := some "c2" }

/-- Witness for claim C10: on a two-entry roster holding neither entry for
guild g3, the leave-time splice deletes the final entry. -/
theorem leave_splice_removes_last_witness :
    Node.leaveVoiceChannelRoster [c10EntryA, c10EntryB] "g3" = [c10EntryA] :=
  (leave_splice_removes_last_when_guild_absent [c10EntryA, c10EntryB] "g3"
    (by decide) (by decide)).1

/-- Join options used for exercising the claim C1 roster update. -/
def c1Opts : VoiceChannelOptions := { guildId := "g1", channelId := some "c1" }

/-- A roster entry for the same guild as `c1Opts`, in another channel. -/
def c1Entry : VoiceChannelOptions := { guildId := "g1", channelId := some "c0" }

/-- Claim C1: the current (esbatu) `joinVoiceChannel` appends the entry to
the durable roster iff no entry with this guild id is present, and leaves
the roster unchanged otherwise; the historical (icelink) variant instead
tests whether SOME entry has a different guild id, and on an empty prior
roster it fails to append although no entry for the guild exists. -/
theorem joinVoiceChannel_roster_append_iff_absent :
    (∀ (cache : List VoiceChannelOptions) (opts : VoiceChannelOptions),
        (∃ e ∈ cache, e.guildId = opts.guildId) →
        Node.joinVoiceChannelRoster cache opts = cache) ∧
    (∀ (cache : List VoiceChannelOptions) (opts : VoiceChannelOptions),
        (∀ e ∈ cache, e.guildId ≠ opts.guildId) →
        Node.joinVoiceChannelRoster cache opts = cache ++ [joinRosterEntry opts]) ∧
    Node.joinVoiceChannelRosterIcelink [] c1Opts = [] := by
  refine ⟨?_, ?_, rfl⟩
  · rintro cache opts ⟨e, he, heq⟩
    unfold Node.joinVoiceChannelRoster
    rw [if_pos]
    simp only [List.any_eq_true]
    exact ⟨e, he, by simp [heq]⟩
  · intro cache opts h
    unfold Node.joinVoiceChannelRoster
    rw [if_neg]
    simp only [List.any_eq_true, not_exists, not_and]
    intro e he
    simpa using h e he

/-- Witness for claim C1: with the guild already present the roster is
unchanged; with the guild absent the entry is appended. -/
theorem joinVoiceChannel_roster_witness :
    Node.joinVoiceChannelRoster [c1Entry] c1Opts = [c1Entry] ∧
      Node.joinVoiceChannelRoster [] c1Opts = [joinRosterEntry c1Opts] :=
  ⟨joinVoiceChannel_roster_append_iff_absent.1 [c1Entry] c1Opts
      ⟨c1Entry, by simp, rfl⟩,
    joinVoiceChannel_roster_append_iff_absent.2.1 [] c1Opts (by simp)⟩

/-- Claim C4: a voice-server-update packet is rejected with the
missing-endpoint signal when the endpoint is null, and with the
missing-session-id signal when no gateway session id has been recorded;
the cached serverUpdate field is written and the ready signal is emitted
exactly when an endpoint is present and a session id is already known, so
an emitted ready signal implies both are known. -/
theorem serverUpdate_accepted_iff_sessionId_and_endpoint
    (conns : List (String × ConnectionInfo)) (managerId : Option String)
    (g token : String) (endpoint : Option String) (c : ConnectionInfo)
    (h : lookupConn conns g = some c) :
    (endpoint = none →
        updateInstance conns managerId (GatewayPacket.voiceServerUpdate g token endpoint) =
          (conns, [(g, VoiceState.SessionEndpointMissing)])) ∧
    (∀ ep, endpoint = some ep → c.sessionId = none →
        updateInstance conns managerId (GatewayPacket.voiceServerUpdate g token endpoint) =
          (conns, [(g, VoiceState.SessionIdMissing)])) ∧
    (∀ ep, endpoint = some ep → c.sessionId ≠ none →
        updateInstance conns managerId (GatewayPacket.voiceServerUpdate g token endpoint) =
          (setConn conns g
              { c with
                  lastRegion := c.region
                  region := deriveRegion ep
                  serverUpdate := some { token := token, endpoint := ep } },
            [(g, VoiceState.SessionReady)])) ∧
    ((g, VoiceState.SessionReady) ∈
        (updateInstance conns managerId
          (GatewayPacket.voiceServerUpdate g token endpoint)).2 →
      endpoint ≠ none ∧ c.sessionId ≠ none) := by
  refine ⟨?_, ?_, ?_, ?_⟩
  · rintro rfl
    simp [updateInstance, h]
  · rintro ep rfl hsid
    simp [updateInstance, h, hsid]
  · rintro ep rfl hsid
    rcases hs : c.sessionId with _ | s
    · exact absurd hs hsid
    · simp [updateInstance, h, hs]
  · intro hmem
    cases hep : endpoint with
    | none =>
        rw [hep] at hmem
        simp [updateInstance, h] at hmem
    | some ep =>
        refine ⟨by simp [hep], ?_⟩
        intro hsid
        rw [hep] at hmem
        simp [updateInstance, h, hsid] at hmem

/-- Concrete connection collection for the claim C4 witness: guild g1 has
a recorded gateway session id but no cached server update yet. -/
def c4Conns : List (String × ConnectionInfo) :=
  [("g1", { guildId := "g1", channelId := some "c1", sessionId := some "sess" })]

/-- Witness for claim C4: with a session id recorded and a non-null
endpoint, the server update is cached and the ready signal emitted; with
a null endpoint it is rejected with the missing-endpoint signal. -/
theorem serverUpdate_accepted_witness :
    updateInstance c4Conns (some "client") (GatewayPacket.voiceServerUpdate "g1" "tok"
        (some "singapore123.discord.media")) =
      (setConn c4Conns "g1"
          { guildId := "g1", channelId := some "c1", sessionId := some "sess"
            lastRegion := none
            region := deriveRegion "singapore123.discord.media"
            serverUpdate := some { token := "tok", endpoint := "singapore123.discord.media" } },
        [("g1", VoiceState.SessionReady)]) ∧
      updateInstance c4Conns (some "client")
          (GatewayPacket.voiceServerUpdate "g1" "tok" none) =
        (c4Conns, [("g1", VoiceState.SessionEndpointMissing)]) :=
  ⟨(serverUpdate_accepted_iff_sessionId_and_endpoint c4Conns (some "client") "g1" "tok"
        (some "singapore123.discord.media") _ rfl).2.2.1
      "singapore123.discord.media" rfl (by decide),
    (serverUpdate_accepted_iff_sessionId_and_endpoint c4Conns (some "client") "g1" "tok"
        none _ rfl).1 rfl⟩

/-- A node whose handshake completed (`Nearly`) but which has not yet
received the ready push, for exercising claim C7. -/
def c7Node : NodeWsState := { name := "a", state := State.Nearly }

/-- A registered player on that node, for exercising claim C7. -/
def c7Player : Player := { guildId := "g1", node := { name := "a" } }

/-- Counterexample for claim C7: with the node in the `Nearly` state (not
destroyed, not Reconnecting, but also not yet Connected) an inbound
player-update push is NOT dropped — it is routed to the registered player
and mutates its position, contradicting the claim that pushes are dropped
while the state is not yet Connected. -/
theorem message_not_dropped_in_nearly_state :
    c7Node.destroyed = false ∧ c7Node.state = State.Nearly ∧
      (Node.message c7Node [("g1", c7Player)]
          (PushMessage.playerUpdate "g1" { position := 77, ping := 3, connected := true })).2.1 =
        [("g1", { c7Player with position := 77, ping := 3, connected := true })] ∧
      { c7Player with position := 77, ping := 3, connected := true } ≠ c7Player := by
  refine ⟨rfl, rfl, ?_, by decide⟩
  decide

/-- Claim C7 (amended): an inbound push is dropped entirely — no player
mutated, nothing emitted, not even the raw passthrough — exactly while
the node is already destroyed or in the Reconnecting state; a
player-update or event push whose guild id matches no registered player
is silently dropped (only the raw passthrough fires).  Pushes arriving in
the other states, including states before Connected, are processed. -/
theorem message_dropped_when_destroyed_or_reconnecting :
    (∀ (node : NodeWsState) (players : List (String × Player)) (msg : PushMessage),
        node.destroyed = true ∨ node.state = State.Reconnecting →
        Node.message node players msg = (node, players, [])) ∧
    (∀ (node : NodeWsState) (players : List (String × Player)) (g : String)
        (st : PlayerUpdateState),
        node.destroyed = false → node.state ≠ State.Reconnecting →
        lookupPlayer players g = none →
        Node.message node players (PushMessage.playerUpdate g st) =
          (node, players, [EmittedEvent.raw])) ∧
    (∀ (node : NodeWsState) (players : List (String × Player)) (g : String)
        (ev : PlayerEventPayload),
        node.destroyed = false → node.state ≠ State.Reconnecting →
        lookupPlayer players g = none →
        Node.message node players (PushMessage.event g ev) =
          (node, players, [EmittedEvent.raw])) := by
  refine ⟨?_, ?_, ?_⟩
  · intro node players msg h
    unfold Node.message
    rw [if_pos]
    rcases h with h | h
    · exact Or.inl (by simp [h])
    · exact Or.inr h
  · intro node players g st hd hs hl
    simp [Node.message, hd, hs, hl]
  · intro node players g ev hd hs hl
    simp [Node.message, hd, hs, hl]

/-- Witness for claim C7 (amended): a push to a destroyed node is dropped
entirely, and a push for an unregistered guild leaves the players
untouched. -/
theorem message_dropped_witness :
    Node.message { name := "a", state := State.Connected, destroyed := true } []
        (PushMessage.playerUpdate "g1" { position := 5 }) =
      ({ name := "a", state := State.Connected, destroyed := true }, [], []) ∧
      Node.message { name := "a", state := State.Connected } []
          (PushMessage.playerUpdate "g1" { position := 5 }) =
        ({ name := "a", state := State.Connected }, [], [EmittedEvent.raw]) :=
  ⟨message_dropped_when_destroyed_or_reconnecting.1 _ _ _ (Or.inl rfl),
    message_dropped_when_destroyed_or_reconnecting.2.1 _ _ _ _ rfl (by decide) rfl⟩

/-- A player mid-playback, for exercising claim C6. -/
def c6Player : Player :=
  { guildId := "g1", node := { name := "a" }, position := 250, _encodedTrack := some "abc" }

/-- Counterexample for claim C6: `stopTrack` mutates the locally mirrored
state BEFORE its request completes — on a failed request the position has
already been reset from 250 to 0 and the encoded track dropped, so the
local state is not left unmodified when the request never completed. -/
theorem stopTrack_mutates_before_request :
    (Player.stopTrack c6Player [none]).outcome =
        OpOutcome.failed { c6Player with position := 0, _encodedTrack := none } ∧
      c6Player.position = 250 ∧ c6Player._encodedTrack = some "abc" := by
  refine ⟨?_, rfl, rfl⟩
  decide

/-- Claim C6 (amended): every mutating Player operation issues exactly one
request to the Request Client, scoped to this guild, consuming exactly
one scripted response; a request failure propagates to the caller;
`playTrack`, `setPaused`, `seekTo`, `setGlobalVolume`, `setFilters` and
`clearFilters` leave the local state unmodified when the request never
completed and overwrite the locally mirrored fields from the response on
success; `stopTrack` instead resets the position and encoded track before
issuing its single request (so those two fields are mutated even on
failure) and ignores the response body. -/
theorem mutating_ops_one_scoped_request (p : Player) (playable : PlayOptions)
    (pausedArg : Bool) (pos vol : ℤ) (fo : FilterOptions)
    (script : List (Option LavalinkPlayer)) :
    ((p.playTrack playable script).requests.map (fun i => i.guildId) = [p.guildId] ∧
        (p.playTrack playable script).script = script.tail) ∧
    ((p.stopTrack script).requests.map (fun i => i.guildId) = [p.guildId] ∧
        (p.stopTrack script).script = script.tail) ∧
    ((p.setPaused pausedArg script).requests.map (fun i => i.guildId) = [p.guildId] ∧
        (p.setPaused pausedArg script).script = script.tail) ∧
    ((p.seekTo pos script).requests.map (fun i => i.guildId) = [p.guildId] ∧
        (p.seekTo pos script).script = script.tail) ∧
    ((p.setGlobalVolume vol script).requests.map (fun i => i.guildId) = [p.guildId] ∧
        (p.setGlobalVolume vol script).script = script.tail) ∧
    ((p.setFilters fo script).requests.map (fun i => i.guildId) = [p.guildId] ∧
        (p.setFilters fo script).script = script.tail) ∧
    ((p.clearFilters script).requests.map (fun i => i.guildId) = [p.guildId] ∧
        (p.clearFilters script).script = script.tail) ∧
    ((script.head?).getD none = none →
        (p.playTrack playable script).outcome = OpOutcome.failed p ∧
        (p.setPaused pausedArg script).outcome = OpOutcome.failed p ∧
        (p.seekTo pos script).outcome = OpOutcome.failed p ∧
        (p.setGlobalVolume vol script).outcome = OpOutcome.failed p ∧
        (p.setFilters fo script).outcome = OpOutcome.failed p ∧
        (p.clearFilters script).outcome = OpOutcome.failed p ∧
        (p.stopTrack script).outcome =
          OpOutcome.failed { p with position := 0, _encodedTrack := none }) ∧
    (∀ resp, script.head? = some (some resp) →
        (p.playTrack playable script).outcome =
          OpOutcome.ok { p with
            trackIdentifier := resp.track.map (fun t => t.info.identifier)
            paused := resp.paused
            position := resp.state.position
            _encodedTrack := resp.track.map (fun t => t.encoded) } ∧
        (p.setPaused pausedArg script).outcome =
          OpOutcome.ok { p with paused := resp.paused } ∧
        (p.seekTo pos script).outcome =
          OpOutcome.ok { p with position := resp.state.position } ∧
        (p.setGlobalVolume vol script).outcome =
          OpOutcome.ok { p with volume := resp.volume } ∧
        (p.setFilters fo script).outcome =
          OpOutcome.ok { p with filters := resp.filters } ∧
        (p.clearFilters script).outcome =
          OpOutcome.ok { p with filters := resp.filters } ∧
        (p.stopTrack script).outcome =
          OpOutcome.ok { p with position := 0, _encodedTrack := none }) := by
  rcases script with _ | ⟨_ | resp, rest⟩ <;>
    simp [Player.playTrack, Player.stopTrack, Player.setPaused, Player.seekTo,
      Player.setGlobalVolume, Player.setFilters, Player.clearFilters, restUpdatePlayer]

/-- Witness for claim C6: concrete failure and success runs of the
operations.  The failed request leaves a non-stopTrack operation's state
untouched; the successful request overwrites the pause flag from the
response. -/
theorem mutating_ops_witness :
    (Player.setPaused c6Player true [none]).outcome = OpOutcome.failed c6Player ∧
      (Player.setPaused c6Player true [some { paused := true }]).outcome =
        OpOutcome.ok { c6Player with paused := true } :=
  ⟨((mutating_ops_one_scoped_request c6Player { track := "t" } true 0 0 {}
        [none]).2.2.2.2.2.2.2.1 rfl).2.1,
    ((mutating_ops_one_scoped_request c6Player { track := "t" } true 0 0 {}
        [some { paused := true }]).2.2.2.2.2.2.2.2 { paused := true } rfl).2.1⟩

/-- Claim C9: when the resolved target node (the explicitly named one,
else the best Connected node excluding the current) is the node the
player is already bound to, `movePlayer` returns false and mutates
nothing — bound node, mirrored fields, durable rosters and scripted rest
state are all untouched. -/
theorem movePlayer_to_current_node_is_noop (p : Player) (name : Option String)
    (env : MoveEnv) (node : NodeEntry)
    (hres : (name.bind (lookupNode env.nodes)).orElse
        (fun _ => idealExcludeCurrentNode env.nodes p.node.name) = some node)
    (hname : node.name = p.node.name) :
    p.movePlayer name env = (MoveOutcome.returned false, p, env, []) := by
  unfold Player.movePlayer
  rw [hres]
  simp [hname]

/-- The single node of the claim C9 / C2 scenarios. -/
def c9Node : NodeEntry := { name := "a", state := State.Connected }

/-- The player of the claim C9 / C2 scenarios, bound to that node. -/
def c9Player : Player := { guildId := "g1", node := c9Node }

/-- The manager environment of the claim C9 / C2 scenarios. -/
def c9Env : MoveEnv := { nodes := [c9Node] }

/-- Witness for claim C9: explicitly naming the node the player is bound
to returns false and changes nothing. -/
theorem movePlayer_to_current_node_witness :
    Player.movePlayer c9Player (some "a") c9Env =
      (MoveOutcome.returned false, c9Player, c9Env, []) :=
  movePlayer_to_current_node_is_noop c9Player (some "a") c9Env c9Node rfl rfl

/-- Claim C2 (amended): when the manager has no Connected node other than
the player's current one, `movePlayer` with no explicit target name
returns false — it does NOT throw — and the player's bound node, its
mirrored fields and all durable state are unchanged. -/
theorem movePlayer_no_other_connected_returns_false (p : Player) (env : MoveEnv)
    (h : ∀ n ∈ env.nodes, n.state = State.Connected → n.name = p.node.name) :
    p.movePlayer none env = (MoveOutcome.returned false, p, env, []) := by
  have hfilter : env.nodes.filter
      (fun n => decide (n.name ≠ p.node.name ∧ n.state = State.Connected)) = [] := by
    rw [List.filter_eq_nil_iff]
    intro n hn
    simp only [decide_eq_true_eq]
    rintro ⟨hne, hc⟩
    exact hne (h n hn hc)
  have hideal : idealExcludeCurrentNode env.nodes p.node.name = none := by
    unfold idealExcludeCurrentNode
    rw [hfilter]
    rfl
  unfold Player.movePlayer
  rw [show ((none : Option String).bind (lookupNode env.nodes)).orElse
      (fun _ => idealExcludeCurrentNode env.nodes p.node.name) = none by
    simp [Option.orElse, hideal]]

/-- Environment for the claim C2 witness: the player's own node is
Connected and the only other node is Disconnected. -/
def c2WitnessEnv : MoveEnv :=
  { nodes := [c9Node, { name := "b", state := State.Disconnected }] }

/-- Witness for claim C2 (amended): with the only other node Disconnected,
`movePlayer()` with no target returns false and changes nothing. -/
theorem movePlayer_no_other_connected_witness :
    Player.movePlayer c9Player none c2WitnessEnv =
      (MoveOutcome.returned false, c9Player, c2WitnessEnv, []) :=
  movePlayer_no_other_connected_returns_false c9Player c2WitnessEnv (by decide)

/-- Counterexample for claim C2: with a single node, Connected and equal
to the player's current binding (so no OTHER Connected node exists),
`movePlayer()` with no explicit target returns false instead of throwing,
and the bound node is unchanged. -/
theorem movePlayer_no_other_connected_does_not_throw :
    (∀ n ∈ c9Env.nodes, n.state = State.Connected → n.name = c9Player.node.name) ∧
      Player.movePlayer c9Player none c9Env =
        (MoveOutcome.returned false, c9Player, c9Env, []) := by
  constructor
  · decide
  · unfold Player.movePlayer
    rfl

/-- The CPU penalty term is monotone (not strictly) in the system load:
real exponentiation with base 1.05 is monotone in the exponent and
rounding is monotone. -/
theorem cpuPenalty_mono {a b : ℚ} (h : a ≤ b) : cpuPenalty a ≤ cpuPenalty b := by
  unfold cpuPenalty
  have hle : (1.05 : ℝ) ^ ((100 * a : ℚ) : ℝ) ≤ (1.05 : ℝ) ^ ((100 * b : ℚ) : ℝ) := by
    apply Real.rpow_le_rpow_of_exponent_le (by norm_num)
    have hab : (a : ℝ) ≤ (b : ℝ) := by exact_mod_cast h
    push_cast
    linarith
  rw [round_eq, round_eq]
  exact Int.floor_mono (by linarith)

/-- On a load of k hundredths the CPU penalty exponent is the natural
number k, so the real power is an ordinary monomial. -/
theorem cpuPenalty_div100 (k : ℕ) :
    cpuPenalty ((k : ℚ) / 100) = round ((1.05 : ℝ) ^ (k : ℕ) * 10 - 10) := by
  unfold cpuPenalty
  rw [show ((100 * ((k : ℚ) / 100) : ℚ) : ℝ) = ((k : ℕ) : ℝ) by push_cast; ring,
    Real.rpow_natCast]

/-- CPU penalty at system load 0.5: round(1.05^50 * 10 - 10) = 105. -/
theorem cpuPenalty_half : cpuPenalty (1 / 2 : ℚ) = 105 := by
  rw [show (1 / 2 : ℚ) = ((50 : ℕ) : ℚ) / 100 by norm_num, cpuPenalty_div100]
  rw [round_eq, Int.floor_eq_iff]
  constructor
  · norm_num
  · norm_num

/-- CPU penalty at system load 0.01: round(1.05 * 10 - 10) = round(0.5) = 1. -/
theorem cpuPenalty_centi : cpuPenalty (1 / 100 : ℚ) = 1 := by
  rw [show (1 / 100 : ℚ) = ((1 : ℕ) : ℚ) / 100 by norm_num, cpuPenalty_div100]
  rw [round_eq, Int.floor_eq_iff]
  constructor
  · norm_num
  · norm_num

/-- CPU penalty at system load 0.02: round(1.1025 * 10 - 10) = round(1.025) = 1. -/
theorem cpuPenalty_twoCenti : cpuPenalty (2 / 100 : ℚ) = 1 := by
  rw [show (2 / 100 : ℚ) = ((2 : ℕ) : ℚ) / 100 by norm_num, cpuPenalty_div100]
  rw [round_eq, Int.floor_eq_iff]
  constructor
  · norm_num
  · norm_num

/-- Statistics at system load 0.01, all other quantities zero. -/
def c5StatsA : NodeStats := { cpu := { systemLoad := 1 / 100 } }

/-- Statistics at system load 0.02, all other quantities zero. -/
def c5StatsB : NodeStats := { cpu := { systemLoad := 2 / 100 } }

/-- The claim C5 scenario statistics: players 5, system load 0.5, frame
deficit 10, nulled frames 2. -/
def c5ScenarioStats : NodeStats :=
  { players := 5, cpu := { systemLoad := 1 / 2 }
    frameStats := some { deficit := 10, nulled := 2 } }

/-- Counterexample for claim C5: the penalty score is NOT strictly
increasing in the CPU system load — raising the load from 0.01 to 0.02
(all other statistics equal) leaves the score unchanged, because the
exponential term rounds to 1 in both cases. -/
theorem penalties_not_strictly_mono_in_cpu_load :
    c5StatsA.cpu.systemLoad < c5StatsB.cpu.systemLoad ∧
      c5StatsA.players = c5StatsB.players ∧
      c5StatsA.frameStats = c5StatsB.frameStats ∧
      penalties (some c5StatsA) = penalties (some c5StatsB) := by
  refine ⟨by norm_num [c5StatsA, c5StatsB], rfl, rfl, ?_⟩
  show c5StatsA.players + cpuPenalty c5StatsA.cpu.systemLoad + 0 =
    c5StatsB.players + cpuPenalty c5StatsB.cpu.systemLoad + 0
  show (0 : ℤ) + cpuPenalty (1 / 100) + 0 = 0 + cpuPenalty (2 / 100) + 0
  rw [cpuPenalty_centi, cpuPenalty_twoCenti]

/-- Claim C5 (amended): the penalty score is 0 when no statistics are
known; it is strictly increasing in the player count, the frame deficit
and the nulled-frame count, and monotone but NOT strictly increasing in
the CPU system load; on the scenario statistics (players 5, system load
0.5, deficit 10, nulled 2) the score is 5 + round(1.05^50*10-10) + 10 + 4
= 5 + 105 + 10 + 4 = 124. -/
theorem penalties_spec :
    penalties none = 0 ∧
    (∀ (s : NodeStats) (k : ℤ), 0 < k →
        penalties (some s) < penalties (some { s with players := s.players + k })) ∧
    (∀ (s : NodeStats) (fs : FrameStats) (k : ℤ), s.frameStats = some fs → 0 < k →
        penalties (some s) <
          penalties (some { s with frameStats := some { fs with deficit := fs.deficit + k } })) ∧
    (∀ (s : NodeStats) (fs : FrameStats) (k : ℤ), s.frameStats = some fs → 0 < k →
        penalties (some s) <
          penalties (some { s with frameStats := some { fs with nulled := fs.nulled + k } })) ∧
    (∀ (s : NodeStats) (a b : ℚ), a ≤ b →
        penalties (some { s with cpu := { s.cpu with systemLoad := a } }) ≤
          penalties (some { s with cpu := { s.cpu with systemLoad := b } })) ∧
    penalties (some c5ScenarioStats) = 124 ∧
    (5 : ℤ) + round ((1.05 : ℝ) ^ ((50 : ℕ) : ℝ) * 10 - 10) + 10 + 4 = 124 := by
  refine ⟨rfl, ?_, ?_, ?_, ?_, ?_, ?_⟩
  · intro s k hk
    cases hfs : s.frameStats with
    | none => simp [penalties, hfs]; linarith
    | some fs => simp [penalties, hfs]; linarith
  · intro s fs k h hk
    simp [penalties, h]
    linarith
  · intro s fs k h hk
    simp [penalties, h]
    linarith
  · intro s a b h
    have hcpu := cpuPenalty_mono h
    cases hfs : s.frameStats with
    | none => simp [penalties, hfs]; linarith
    | some fs => simp [penalties, hfs]; linarith
  · show c5ScenarioStats.players + cpuPenalty c5ScenarioStats.cpu.systemLoad +
      (10 + 2 * 2) = 124
    show (5 : ℤ) + cpuPenalty (1 / 2) + (10 + 2 * 2) = 124
    rw [cpuPenalty_half]
    rfl
  · rw [Real.rpow_natCast]
    rw [show round ((1.05 : ℝ) ^ (50 : ℕ) * 10 - 10) = 105 from by
      rw [round_eq, Int.floor_eq_iff]
      constructor
      · norm_num
      · norm_num]
    rfl

/-- Witness for claim C5: the monotonicity conjuncts applied at concrete
statistics — adding a player raises the score, and raising the system
load does not lower it. -/
theorem penalties_spec_witness :
    penalties (some c5StatsA) <
        penalties (some { c5StatsA with players := c5StatsA.players + 1 }) ∧
      penalties (some c5ScenarioStats) <
        penalties
          (some { c5ScenarioStats with
            frameStats := some { sent := 0, deficit := 10 + 2, nulled := 2 } }) ∧
      penalties (some c5ScenarioStats) <
        penalties
          (some { c5ScenarioStats with
            frameStats := some { sent := 0, deficit := 10, nulled := 2 + 3 } }) ∧
      penalties (some { c5StatsA with cpu := { c5StatsA.cpu with systemLoad := 1 / 100 } }) ≤
        penalties (some { c5StatsA with cpu := { c5StatsA.cpu with systemLoad := 1 / 2 } }) :=
  ⟨penalties_spec.2.1 c5StatsA 1 (by decide),
    penalties_spec.2.2.1 c5ScenarioStats { sent := 0, deficit := 10, nulled := 2 } 2
      rfl (by decide),
    penalties_spec.2.2.2.1 c5ScenarioStats { sent := 0, deficit := 10, nulled := 2 } 3
      rfl (by decide),
    penalties_spec.2.2.2.2.1 c5StatsA (1 / 100) (1 / 2) (by norm_num)⟩

end Esbatu
